import Mathlib

/-!
Verification of `MUSIC_PRODUCER_SEARCH.py`: a shallow embedding of its four
stages (identity resolver, catalog paginator, producer filter, CSV exporter)
and of the `main` orchestration, followed by theorems about them.

HTTP calls are modelled as function-valued fields of a `GeniusAPI` record;
`requests.get(...).raise_for_status()` becomes an `Except String` result whose
`error` case stands for a raised transport exception.  The `while True`
pagination loop is embedded with explicit fuel: a `none` result means the loop
has not yet terminated within the given fuel.
-/

/-- A search hit's `result.primary_artist` object: `id` and `name`. -/
structure Artist where
  id : Nat
  name : String
deriving Repr, DecidableEq

/-- A song stub from the `/artists/{id}/songs` listing; only `id` is used. -/
structure SongStub where
  id : Nat
deriving Repr, DecidableEq

/-- One entry of a song's `producer_artists` list: `id` and `name`. -/
structure ProducerCredit where
  id : Nat
  name : String
deriving Repr, DecidableEq

/-- The `response.song` object of the `/songs/{id}` detail endpoint.
`producer_artists` and `release_date` are optional keys (`detail.get`). -/
structure SongDetail where
  title : String
  primary_artist_name : String
  producer_artists : Option (List ProducerCredit)
  release_date : Option String
  url : String
deriving Repr, DecidableEq

/-- The flat dict appended to `filtered` in `filter_songs_by_producer`,
with its keys in Python insertion order. -/
structure OutputRecord where
  song_id : Nat
  title : String
  primary_artist : String
  producers : String
  release_date : String
  url : String
deriving Repr, DecidableEq

/-- The two kinds of exceptions the script can raise: `requests.HTTPError`
from `raise_for_status` (transport) and the `ValueError` of
`find_producer_id` (notFound). -/
inductive RunError where
  | transport (msg : String)
  | notFound (msg : String)
deriving Repr, DecidableEq

/-- The remote Genius API, as seen by the script: a search endpoint, a
paged songs-by-artist endpoint (artist id, page number), and a song-detail
endpoint.  `error` models a non-2xx HTTP status. -/
structure GeniusAPI where
  search : String → Except String (List Artist)
  songsPage : Nat → Nat → Except String (List SongStub)
  songDetail : Nat → Except String SongDetail

/-- `leadsWith small big` : `small` occurs at the start of `big`
(the offset-0 probe of Python's substring test). -/
def leadsWith : List Char → List Char → Bool
  | [], _ => true
  | _ :: _, [] => false
  | c :: cs, d :: ds => decide (c = d) && leadsWith cs ds

/-- `containsSub small big` : `small` occurs contiguously in `big`,
i.e. Python's `small in big` on strings, at the character-list level. -/
def containsSub (small : List Char) : List Char → Bool
  | [] => leadsWith small []
  | c :: rest => leadsWith small (c :: rest) || containsSub small rest

/-- Python's `str.lower`, modelled characterwise with `Char.toLower`. -/
def pyLower (s : String) : String :=
  ⟨s.data.map Char.toLower⟩

/-- Python's `needle.lower() in haystack.lower()`. -/
def strContainsCI (haystack needle : String) : Bool :=
  containsSub (pyLower needle).data (pyLower haystack).data

/-- Case-sensitive `needle in haystack`, used to state that an error
message names its input. -/
def strContains (haystack needle : String) : Bool :=
  containsSub needle.toList haystack.toList

/-- The loop condition of `find_producer_id`:
`name.lower() in artist["name"].lower()`. -/
def matchesName (name : String) (artist : Artist) : Bool :=
  strContainsCI artist.name name

/-- An apostrophe character, for building the `ValueError` message text. -/
def apos : Char := '\x27'

/-- The message of `ValueError(f"No producer artist found for '{name}'")`. -/
def notFoundMsg (name : String) : String :=
  "No producer artist found for " ++ String.singleton apos ++ name
    ++ String.singleton apos

/-- `find_producer_id`, after the search response has been obtained: scan
`hits` in API order and return the first whose primary-artist name contains
`name` case-insensitively; otherwise raise `ValueError`. -/
def find_producer_id (name : String) (hits : List Artist) :
    Except RunError (Nat × String) :=
  match hits with
  | [] => .error (.notFound (notFoundMsg name))
  | a :: rest =>
    if matchesName name a then .ok (a.id, a.name)
    else find_producer_id name rest

/-- The `while True` pagination loop of `fetch_all_songs_for_artist`,
with explicit fuel.  `songsPage p` is the request for page `p`; an empty
page breaks the loop; otherwise its items are appended and the loop
continues with `p + 1`.  `none` means fuel ran out before the loop
terminated. -/
def fetch_pages (songsPage : Nat → Except String (List SongStub)) :
    Nat → Nat → Option (Except String (List SongStub))
  | _, 0 => none
  | page, fuel + 1 =>
    match songsPage page with
    | .error e => some (.error e)
    | .ok songs =>
      if songs.isEmpty then some (.ok [])
      else
        match fetch_pages songsPage (page + 1) fuel with
        | none => none
        | some (.error e) => some (.error e)
        | some (.ok rest) => some (.ok (songs ++ rest))

/-- `fetch_all_songs_for_artist`: paginate from page 1. -/
def fetch_all_songs_for_artist (api : GeniusAPI) (artist_id : Nat)
    (fuel : Nat) : Option (Except String (List SongStub)) :=
  fetch_pages (api.songsPage artist_id) 1 fuel

/-- The record built at lines 51-58 of the script for a song that passed
the producer check. -/
def projectRecord (sid : Nat) (detail : SongDetail) : OutputRecord :=
  { song_id := sid
    title := detail.title
    primary_artist := detail.primary_artist_name
    producers :=
      String.intercalate "; "
        ((detail.producer_artists.getD []).map ProducerCredit.name)
    release_date := detail.release_date.getD ""
    url := detail.url }

/-- `filter_songs_by_producer`: for each stub fetch the detail record
(aborting on the first transport error), keep the song exactly when
`producer_id` occurs in its `producer_artists` ids. -/
def filter_songs_by_producer (fetchDetail : Nat → Except String SongDetail)
    (song_list : List SongStub) (producer_id : Nat) :
    Except String (List OutputRecord) :=
  match song_list with
  | [] => .ok []
  | s :: rest =>
    match fetchDetail s.id with
    | .error e => .error e
    | .ok detail =>
      match filter_songs_by_producer fetchDetail rest producer_id with
      | .error e => .error e
      | .ok recs =>
        if ((detail.producer_artists.getD []).map
              ProducerCredit.id).contains producer_id then
          .ok (projectRecord s.id detail :: recs)
        else .ok recs

/-- CSV quoting predicate of Python's `csv` module (QUOTE_MINIMAL): a field
is quoted when it contains the delimiter, the quote char, or a line break. -/
def needsQuote (s : String) : Bool :=
  s.toList.any fun c =>
    decide (c = ',') || decide (c = '"') || decide (c = '\n')
      || decide (c = '\r')

/-- Quote one CSV field, doubling embedded quote chars. -/
def csvQuote (s : String) : String :=
  if needsQuote s then "\"" ++ s.replace "\"" "\"\"" ++ "\"" else s

/-- One CSV line from a list of field strings. -/
def csvLine (fields : List String) : String :=
  String.intercalate "," (fields.map csvQuote)

/-- `records[0].keys()`: the key set of every output record, in Python
dict insertion order. -/
def recordFieldNames : List String :=
  ["song_id", "title", "primary_artist", "producers", "release_date", "url"]

/-- The values of one output record, in the same order as the keys. -/
def recordValues (r : OutputRecord) : List String :=
  [toString r.song_id, r.title, r.primary_artist, r.producers,
   r.release_date, r.url]

/-- Result of `save_to_csv`: `file = none` means no file was opened
(nothing created or truncated); `console` collects `print` output. -/
structure SaveResult where
  file : Option (List String)
  console : List String
deriving Repr, DecidableEq

/-- `save_to_csv`: empty input prints a notice and writes nothing;
otherwise the file holds a header line from the first record's keys and
one line per record in input order. -/
def save_to_csv (records : List OutputRecord) : SaveResult :=
  if records.isEmpty then
    { file := none, console := ["No records to write."] }
  else
    { file := some (csvLine recordFieldNames ::
        records.map fun r => csvLine (recordValues r))
      console := [] }

/-- The `main` pipeline after argument parsing: search, resolve, paginate,
filter, export.  `none` means the pagination loop exceeded its fuel;
`some (.error e)` means the run died with exception `e` before any file
was written; `some (.ok r)` is a completed run with export result `r`. -/
def main_run (api : GeniusAPI) (producer : String) (fuel : Nat) :
    Option (Except RunError SaveResult) :=
  match api.search producer with
  | .error e => some (.error (.transport e))
  | .ok hits =>
    match find_producer_id producer hits with
    | .error e => some (.error e)
    | .ok (pid, _pname) =>
      match fetch_all_songs_for_artist api pid fuel with
      | none => none
      | some (.error e) => some (.error (.transport e))
      | some (.ok all_songs) =>
        match filter_songs_by_producer api.songDetail all_songs pid with
        | .error e => some (.error (.transport e))
        | .ok produced => some (.ok (save_to_csv produced))

/-- Spec-side description of the paginator's output
(`concatPages pages start count` = items of pages `start .. start+count-1`
in page order), used to compare the loop with the spec's
"concatenation of pages" wording. -/
def concatPages (pages : Nat → List SongStub) (start count : Nat) :
    List SongStub :=
  match count with
  | 0 => []
  | c + 1 => pages start ++ concatPages pages (start + 1) c

/-! ## Helper lemmas -/

/-- The empty character list occurs in every list. -/
theorem containsSub_nil (big : List Char) : containsSub [] big = true := by
  cases big <;> simp [containsSub, leadsWith]

/-! ## Claims -/

/-- C1: with every detail fetch succeeding, the producer filter returns
exactly the stable filter of the input by "target producer id occurs in the
credit list", each matching song projected to one record, in input order. -/
theorem filter_includes_iff_credited
    (fd : Nat → SongDetail) (song_list : List SongStub) (producer_id : Nat) :
    filter_songs_by_producer (fun i => .ok (fd i)) song_list producer_id =
      .ok ((song_list.filter fun s =>
              (((fd s.id).producer_artists.getD []).map
                ProducerCredit.id).contains producer_id).map
            fun s => projectRecord s.id (fd s.id)) := by
  induction song_list with
  | nil => rfl
  | cons s rest ih =>
    simp only [filter_songs_by_producer, ih, List.filter_cons]
    cases hmem : (((fd s.id).producer_artists.getD []).map
        ProducerCredit.id).contains producer_id <;> simp [hmem]

/-- C7: on the empty record list, the exporter opens no file (nothing is
created or truncated) and prints the "no records" notice. -/
theorem save_to_csv_empty_writes_nothing :
    save_to_csv [] = { file := none, console := ["No records to write."] } :=
  rfl

/-- C9: a song whose detail record has no `producer_artists` key is treated
as having an empty credit list: it is dropped and no error is raised, so the
filter result on `s :: rest` is exactly the result on `rest`. -/
theorem filter_skips_missing_producer_list
    (fetchDetail : Nat → Except String SongDetail) (s : SongStub)
    (rest : List SongStub) (producer_id : Nat) (d : SongDetail)
    (hd : fetchDetail s.id = .ok d) (hnone : d.producer_artists = none) :
    filter_songs_by_producer fetchDetail (s :: rest) producer_id =
      filter_songs_by_producer fetchDetail rest producer_id := by
  simp only [filter_songs_by_producer, hd, hnone]
  cases hrec : filter_songs_by_producer fetchDetail rest producer_id <;>
    simp [hrec]

/-- A stub and a detail record with no `producer_artists` key, for
exercising the filter on concrete input. -/
def demoDetailNoCredits : SongDetail :=
  { title := "Song T", primary_artist_name := "Artist A",
    producer_artists := none, release_date := none, url := "urlT" }

/-- A detail fetcher that always succeeds with `demoDetailNoCredits`. -/
def demoFetchNoCredits : Nat → Except String SongDetail :=
  fun _ => .ok demoDetailNoCredits

/-- C9 witness: the concrete song 5 with no `producer_artists` key is
dropped without an error. -/
theorem filter_skips_missing_producer_list_witness :
    filter_songs_by_producer demoFetchNoCredits [⟨5⟩] 3 =
      filter_songs_by_producer demoFetchNoCredits [] 3 :=
  filter_skips_missing_producer_list demoFetchNoCredits ⟨5⟩ [] 3
    demoDetailNoCredits rfl rfl

/-- C10: the empty producer name matches every artist name (the empty
string is a case-insensitive substring of anything), so the resolver
returns the very first hit. -/
theorem empty_name_returns_first_hit (a : Artist) (rest : List Artist) :
    find_producer_id "" (a :: rest) = .ok (a.id, a.name) := by
  have h0 : (pyLower "").data = [] := rfl
  have h : matchesName "" a = true := by
    simp [matchesName, strContainsCI, h0, containsSub_nil]
  simp [find_producer_id, h]

/-- `find_producer_id` is the `find?` of the match predicate: first
matching hit wins, otherwise the `ValueError`. -/
theorem find_producer_id_eq_find (name : String) (hits : List Artist) :
    find_producer_id name hits =
      match hits.find? (matchesName name) with
      | some a => .ok (a.id, a.name)
      | none => .error (.notFound (notFoundMsg name)) := by
  induction hits with
  | nil => rfl
  | cons a rest ih =>
    rw [find_producer_id, List.find?]
    cases h : matchesName name a <;> simp [h, ih]

/-- C3: when some hit matches, the resolver returns the id and the exact
display name of the first hit (in API order) whose primary-artist name
contains the supplied name case-insensitively. -/
theorem resolver_returns_first_match (name : String) (hits : List Artist)
    (a : Artist) (hfind : hits.find? (matchesName name) = some a) :
    find_producer_id name hits = .ok (a.id, a.name) := by
  rw [find_producer_id_eq_find, hfind]

/-- C3 witness: "Mike" resolves to the earlier hit "Mikey Smith", not the
later exact hit "Mike" (the spec's first-match-wins edge case). -/
theorem resolver_returns_first_match_witness :
    find_producer_id "Mike" [⟨1, "Mikey Smith"⟩, ⟨2, "Mike"⟩] =
      .ok (1, "Mikey Smith") :=
  resolver_returns_first_match "Mike" [⟨1, "Mikey Smith"⟩, ⟨2, "Mike"⟩]
    ⟨1, "Mikey Smith"⟩ (by decide)

/-- A list that starts with `small` passes the offset-0 probe. -/
theorem leadsWith_append (small suf : List Char) :
    leadsWith small (small ++ suf) = true := by
  induction small with
  | nil => rfl
  | cons c cs ih => simp [leadsWith, ih]

/-- `small` occurs in `pre ++ small ++ suf`. -/
theorem containsSub_append (pre small suf : List Char) :
    containsSub small (pre ++ small ++ suf) = true := by
  induction pre with
  | nil =>
    cases small with
    | nil => simpa using containsSub_nil suf
    | cons c cs =>
      simp only [containsSub, List.nil_append, List.cons_append,
        Bool.or_eq_true]
      exact Or.inl (by simp [leadsWith, leadsWith_append])
  | cons p ps ih =>
    simp only [containsSub, List.cons_append, Bool.or_eq_true]
    exact Or.inr (by simpa using ih)

/-- The not-found message contains the input name verbatim. -/
theorem notFoundMsg_names_input (name : String) :
    strContains (notFoundMsg name) name = true := by
  have hsplit : (notFoundMsg name).data =
      ("No producer artist found for " ++ String.singleton apos).data
        ++ name.data ++ (String.singleton apos).data := by
    simp [notFoundMsg, String.data_append]
  rw [strContains, String.toList, String.toList, hsplit]
  exact containsSub_append _ _ _

/-- C6: when no hit's primary-artist name contains the producer name
case-insensitively, the resolver raises the `ValueError` naming the input,
and the whole run errors out before any file could be written. -/
theorem resolver_not_found_aborts
    (api : GeniusAPI) (producer : String) (fuel : Nat) (hits : List Artist)
    (hsearch : api.search producer = .ok hits)
    (hnone : hits.find? (matchesName producer) = none) :
    find_producer_id producer hits =
        .error (.notFound (notFoundMsg producer)) ∧
    strContains (notFoundMsg producer) producer = true ∧
    main_run api producer fuel =
        some (.error (.notFound (notFoundMsg producer))) ∧
    ∀ r, main_run api producer fuel ≠ some (.ok r) := by
  have hf : find_producer_id producer hits =
      .error (.notFound (notFoundMsg producer)) := by
    rw [find_producer_id_eq_find, hnone]
  refine ⟨hf, notFoundMsg_names_input producer, ?_, ?_⟩
  · simp [main_run, hsearch, hf]
  · intro r
    simp [main_run, hsearch, hf]

/-- A mock API whose search returns one non-matching hit. -/
def demoAPInoMatch : GeniusAPI :=
  { search := fun _ => .ok [⟨9, "Somebody"⟩]
    songsPage := fun _ _ => .ok []
    songDetail := fun _ => .ok demoDetailNoCredits }

/-- C6 witness: searching for "Zzz" against the single hit "Somebody"
raises the not-found error and the run produces no export. -/
theorem resolver_not_found_aborts_witness :
    find_producer_id "Zzz" [⟨9, "Somebody"⟩] =
        .error (.notFound (notFoundMsg "Zzz")) ∧
    strContains (notFoundMsg "Zzz") "Zzz" = true ∧
    main_run demoAPInoMatch "Zzz" 3 =
        some (.error (.notFound (notFoundMsg "Zzz"))) ∧
    ∀ r, main_run demoAPInoMatch "Zzz" 3 ≠ some (.ok r) :=
  resolver_not_found_aborts demoAPInoMatch "Zzz" 3 [⟨9, "Somebody"⟩] rfl
    (by decide)

/-- Pagination against an all-successful server: starting at page `p`,
with `k` the first empty page at or after `p` and enough fuel, the loop
returns the concatenation of pages `p .. k-1` in page order. -/
theorem fetch_pages_concat_aux
    (pages : Nat → List SongStub) (k : Nat) (hempty : pages k = []) :
    ∀ fuel p, p ≤ k → k + 1 ≤ p + fuel →
      (∀ i, p ≤ i → i < k → pages i ≠ []) →
      fetch_pages (fun q => .ok (pages q)) p fuel =
        some (.ok (concatPages pages p (k - p))) := by
  intro fuel
  induction fuel with
  | zero =>
    intro p hpk hfuel hnon
    omega
  | succ m ih =>
    intro p hpk hfuel hnon
    by_cases hp : p = k
    · subst hp
      simp [fetch_pages, hempty, concatPages]
    · have hpk2 : p < k := lt_of_le_of_ne hpk hp
      have hne : pages p ≠ [] := hnon p le_rfl hpk2
      have hbool : (pages p).isEmpty = false := by
        simpa [List.isEmpty_iff] using hne
      have hrec := ih (p + 1) (by omega) (by omega)
        (fun i h1 h2 => hnon i (by omega) h2)
      have hk : k - p = (k - (p + 1)) + 1 := by omega
      rw [fetch_pages, hk, concatPages]
      simp [hbool, hrec]

/-- C2: the catalog paginator requests pages 1, 2, ... and, when `k` is the
first empty page, returns exactly the concatenation of pages `1 .. k-1`
in page order — nothing duplicated, nothing dropped, the empty page
contributing nothing. -/
theorem paginator_concatenates_pages
    (api : GeniusAPI) (artist_id : Nat) (pages : Nat → List SongStub)
    (k fuel : Nat)
    (hapi : ∀ p, api.songsPage artist_id p = .ok (pages p))
    (hk : 1 ≤ k) (hempty : pages k = []) (hfuel : k ≤ fuel)
    (hnon : ∀ i, 1 ≤ i → i < k → pages i ≠ []) :
    fetch_all_songs_for_artist api artist_id fuel =
      some (.ok (concatPages pages 1 (k - 1))) := by
  have hfun : api.songsPage artist_id = fun q => .ok (pages q) := funext hapi
  rw [fetch_all_songs_for_artist, hfun]
  exact fetch_pages_concat_aux pages k hempty fuel 1 hk (by omega) hnon

/-- A deterministic mock catalog: two items on page 1, one on page 2,
empty from page 3 on. -/
def demoPages (p : Nat) : List SongStub :=
  if p = 1 then [⟨1⟩, ⟨2⟩] else if p = 2 then [⟨3⟩] else []

/-- A mock API serving `demoPages` for every artist. -/
def demoAPIpages : GeniusAPI :=
  { search := fun _ => .ok []
    songsPage := fun _ p => .ok (demoPages p)
    songDetail := fun _ => .ok demoDetailNoCredits }

/-- C2 witness: on the 2-page mock catalog the paginator returns pages 1
and 2 concatenated, stopping at the empty page 3. -/
theorem paginator_concatenates_pages_witness :
    fetch_all_songs_for_artist demoAPIpages 42 5 =
      some (.ok (concatPages demoPages 1 2)) :=
  paginator_concatenates_pages demoAPIpages 42 demoPages 3 5
    (fun p => rfl) (by omega) (by decide) (by omega)
    (fun i h1 h2 => by interval_cases i <;> decide)

/-- If every page at or after `n` is empty, the loop halts once it has
fuel to reach page `n`, whatever the earlier pages hold. -/
theorem fetch_pages_terminates_aux
    (pages : Nat → List SongStub) (n : Nat)
    (hempty : ∀ m, n ≤ m → pages m = []) :
    ∀ fuel p, 1 ≤ fuel → n + 1 ≤ p + fuel →
      ∃ L, fetch_pages (fun q => .ok (pages q)) p fuel = some (.ok L) := by
  intro fuel
  induction fuel with
  | zero =>
    intro p h1 h2
    omega
  | succ m ih =>
    intro p h1 h2
    by_cases hpn : n ≤ p
    · exact ⟨[], by simp [fetch_pages, hempty p hpn]⟩
    · cases hc : (pages p).isEmpty with
      | true => exact ⟨[], by simp [fetch_pages, hc]⟩
      | false =>
        obtain ⟨L, hL⟩ := ih (p + 1) (by omega) (by omega)
        exact ⟨pages p ++ L, by rw [fetch_pages]; simp [hc, hL]⟩

/-- C8: if for some page `n ≥ 1` every page from `n` on is empty and page
requests succeed, the pagination loop terminates — with fuel at least `n`
it returns a (finite) list instead of running out. -/
theorem paginator_terminates
    (api : GeniusAPI) (artist_id : Nat) (pages : Nat → List SongStub)
    (n : Nat) (hn : 1 ≤ n)
    (hapi : ∀ p, api.songsPage artist_id p = .ok (pages p))
    (hempty : ∀ m, n ≤ m → pages m = []) :
    ∀ fuel, n ≤ fuel →
      ∃ L, fetch_all_songs_for_artist api artist_id fuel = some (.ok L) := by
  intro fuel hfuel
  have hfun : api.songsPage artist_id = fun q => .ok (pages q) := funext hapi
  rw [fetch_all_songs_for_artist, hfun]
  exact fetch_pages_terminates_aux pages n hempty fuel 1 (by omega) (by omega)

/-- C8 witness: the mock catalog is empty from page 3 on, so with fuel 7
the loop terminates with some list. -/
theorem paginator_terminates_witness :
    ∃ L, fetch_all_songs_for_artist demoAPIpages 42 7 = some (.ok L) :=
  paginator_terminates demoAPIpages 42 demoPages 3 (by omega)
    (fun p => rfl)
    (fun m hm => by
      have h1 : m ≠ 1 := by omega
      have h2 : m ≠ 2 := by omega
      simp [demoPages, h1, h2])
    7 (by omega)

/-- Every record the filter emits comes from some input stub whose detail
fetch succeeded, via `projectRecord`. -/
theorem mem_of_filter_songs_by_producer
    (fetchDetail : Nat → Except String SongDetail)
    (song_list : List SongStub) (producer_id : Nat)
    (records : List OutputRecord)
    (hfil : filter_songs_by_producer fetchDetail song_list producer_id =
      .ok records) :
    ∀ r ∈ records, ∃ s ∈ song_list, ∃ d,
      fetchDetail s.id = .ok d ∧ r = projectRecord s.id d := by
  induction song_list generalizing records with
  | nil =>
    rw [filter_songs_by_producer] at hfil
    cases hfil
    simp
  | cons s rest ih =>
    intro r hr
    cases hd : fetchDetail s.id with
    | error e =>
      rw [filter_songs_by_producer, hd] at hfil
      cases hfil
    | ok d =>
      cases hrec : filter_songs_by_producer fetchDetail rest producer_id with
      | error e =>
        rw [filter_songs_by_producer, hd, hrec] at hfil
        cases hfil
      | ok recs =>
        have hstep : filter_songs_by_producer fetchDetail (s :: rest)
            producer_id =
            if ((d.producer_artists.getD []).map
                ProducerCredit.id).contains producer_id then
              .ok (projectRecord s.id d :: recs)
            else .ok recs := by
          rw [filter_songs_by_producer, hd, hrec]
        rw [hstep] at hfil
        by_cases hmem : (((d.producer_artists.getD []).map
            ProducerCredit.id).contains producer_id) = true
        · rw [if_pos hmem] at hfil
          cases hfil
          rcases List.mem_cons.mp hr with h | h
          · exact ⟨s, List.mem_cons_self s rest, d, hd, h⟩
          · obtain ⟨t, ht, d2, hd2, hrd2⟩ := ih recs hrec r h
            exact ⟨t, List.mem_cons_of_mem s ht, d2, hd2, hrd2⟩
        · rw [if_neg hmem] at hfil
          cases hfil
          obtain ⟨t, ht, d2, hd2, hrd2⟩ := ih _ hrec r hr
          exact ⟨t, List.mem_cons_of_mem s ht, d2, hd2, hrd2⟩

/-- C4: on a non-empty record list produced by the filter, the exporter
writes exactly `records.length + 1` lines — a header from the (fixed)
field order of the first record, then one CSV line per record in input
order — and each record's `producers` field is the semicolon-joined list
of its detail record's producer names, in their original order. -/
theorem exporter_header_and_rows
    (fetchDetail : Nat → Except String SongDetail)
    (song_list : List SongStub) (producer_id : Nat)
    (records : List OutputRecord)
    (hfil : filter_songs_by_producer fetchDetail song_list producer_id =
      .ok records)
    (hne : records ≠ []) :
    ∃ lines, (save_to_csv records).file = some lines ∧
      lines.length = records.length + 1 ∧
      lines = csvLine recordFieldNames ::
        records.map (fun r => csvLine (recordValues r)) ∧
      ∀ r ∈ records, ∃ s ∈ song_list, ∃ d, fetchDetail s.id = .ok d ∧
        r.producers = String.intercalate "; "
          ((d.producer_artists.getD []).map ProducerCredit.name) := by
  refine ⟨csvLine recordFieldNames ::
    records.map (fun r => csvLine (recordValues r)), ?_, by simp, rfl, ?_⟩
  · have hb : records.isEmpty = false := by simpa [List.isEmpty_iff] using hne
    simp [save_to_csv, hb]
  · intro r hr
    obtain ⟨s, hs, d, hd, hrd⟩ :=
      mem_of_filter_songs_by_producer fetchDetail song_list producer_id
        records hfil r hr
    exact ⟨s, hs, d, hd, by rw [hrd]; rfl⟩

/-- A producer credit and a detail record crediting producer 42, for
concrete runs of the filter and exporter. -/
def demoDetailWithCredit : SongDetail :=
  { title := "Hit", primary_artist_name := "Someone",
    producer_artists := some [⟨42, "Metro Boomin"⟩, ⟨8, "Co Prod"⟩],
    release_date := some "2020-01-01", url := "urlH" }

/-- A detail fetcher that always succeeds with `demoDetailWithCredit`. -/
def demoFetchCredit : Nat → Except String SongDetail :=
  fun _ => .ok demoDetailWithCredit

/-- C4 witness: one matching song yields a two-line file (header plus one
row) whose `producers` field joins the two credited names with "; ". -/
theorem exporter_header_and_rows_witness :
    ∃ lines,
      (save_to_csv [projectRecord 7 demoDetailWithCredit]).file =
        some lines ∧
      lines.length = [projectRecord 7 demoDetailWithCredit].length + 1 ∧
      lines = csvLine recordFieldNames ::
        [projectRecord 7 demoDetailWithCredit].map
          (fun r => csvLine (recordValues r)) ∧
      ∀ r ∈ [projectRecord 7 demoDetailWithCredit], ∃ s ∈ [(⟨7⟩ : SongStub)],
        ∃ d, demoFetchCredit s.id = .ok d ∧
          r.producers = String.intercalate "; "
            ((d.producer_artists.getD []).map ProducerCredit.name) :=
  exporter_header_and_rows demoFetchCredit [⟨7⟩] 42
    [projectRecord 7 demoDetailWithCredit] rfl (by simp)

/-- If some stub's detail fetch fails, the filter pass returns a transport
error: no partial list survives. -/
theorem filter_error_of_failed_fetch
    (fetchDetail : Nat → Except String SongDetail)
    (song_list : List SongStub) (producer_id : Nat)
    (s : SongStub) (hs : s ∈ song_list) (e : String)
    (hfail : fetchDetail s.id = .error e) :
    ∃ e2, filter_songs_by_producer fetchDetail song_list producer_id =
      .error e2 := by
  induction song_list with
  | nil => cases hs
  | cons t rest ih =>
    cases ht : fetchDetail t.id with
    | error e3 =>
      exact ⟨e3, by rw [filter_songs_by_producer, ht]⟩
    | ok d =>
      rcases List.mem_cons.mp hs with h | h
      · rw [h, ht] at hfail
        cases hfail
      · obtain ⟨e2, he2⟩ := ih h
        refine ⟨e2, ?_⟩
        rw [filter_songs_by_producer, ht, he2]

/-- C5: once the run has reached the filtering stage, a single failing
detail fetch makes the whole pass return a transport error — no partial
record list — and the run ends in that error, so the export stage never
runs and no CSV content is produced. -/
theorem detail_failure_aborts_run
    (api : GeniusAPI) (producer : String) (fuel : Nat)
    (hits : List Artist) (pid : Nat) (pname : String)
    (all_songs : List SongStub) (s : SongStub) (e : String)
    (hsearch : api.search producer = .ok hits)
    (hfind : find_producer_id producer hits = .ok (pid, pname))
    (hpages : fetch_all_songs_for_artist api pid fuel = some (.ok all_songs))
    (hs : s ∈ all_songs)
    (hfail : api.songDetail s.id = .error e) :
    (∃ e2, filter_songs_by_producer api.songDetail all_songs pid =
      .error e2) ∧
    (∃ e2, main_run api producer fuel = some (.error (.transport e2))) ∧
    ∀ r, main_run api producer fuel ≠ some (.ok r) := by
  obtain ⟨e2, he2⟩ :=
    filter_error_of_failed_fetch api.songDetail all_songs pid s hs e hfail
  refine ⟨⟨e2, he2⟩, ⟨e2, ?_⟩, ?_⟩
  · simp [main_run, hsearch, hfind, hpages, he2]
  · intro r
    simp [main_run, hsearch, hfind, hpages, he2]

/-- A mock API with one matching artist, a one-song catalog, and a detail
endpoint that always fails with an HTTP error. -/
def demoAPIfail : GeniusAPI :=
  { search := fun _ => .ok [⟨42, "Metro Boomin"⟩]
    songsPage := fun _ p => .ok (if p = 1 then [⟨7⟩] else [])
    songDetail := fun _ => .error "HTTP 500" }

/-- C5 witness: with the failing detail endpoint, the concrete run aborts
with a transport error and never reaches the export stage. -/
theorem detail_failure_aborts_run_witness :
    (∃ e2, filter_songs_by_producer demoAPIfail.songDetail [⟨7⟩] 42 =
      .error e2) ∧
    (∃ e2, main_run demoAPIfail "Metro Boomin" 2 =
      some (.error (.transport e2))) ∧
    ∀ r, main_run demoAPIfail "Metro Boomin" 2 ≠ some (.ok r) :=
  detail_failure_aborts_run demoAPIfail "Metro Boomin" 2
    [⟨42, "Metro Boomin"⟩] 42 "Metro Boomin" [⟨7⟩] ⟨7⟩ "HTTP 500"
    rfl rfl rfl (by simp) rfl
